import Mathlib

/-!
Verification development for the popsyntools repository (planet population
synthesis analysis toolkit).  The Python modules `stats.py`, `utils.py` and
`planetePlots.py` are shallowly embedded: pandas DataFrames become lists of
records (numeric data as exact rationals, derived real-valued quantities as
real numbers), in-place column mutation is made explicit, and fallible
operations return `Except String`.  The configuration module `config.py`,
the physical constants used by `utils.py`, and the helper
`convert_dgr2metallicity` are not present in the repository source; they are
modelled from the specification and marked as such.
-/

namespace PopSyn

/-- Modelled from the spec: the astronomical unit in centimeters, supplied by
the Constants Provider which is absent from the repository source (spec
section 4.4).  Only its positivity matters for any claim. -/
def au : ℝ := 1.496e13

/-- Modelled from the spec: the solar mass in grams, supplied by the
Constants Provider which is absent from the repository source (spec section
4.4).  Only its positivity matters for any claim. -/
def Msol : ℝ := 1.989e33

/-- Modelled from the spec: the gravitational constant in cgs units, supplied
by the Constants Provider which is absent from the repository source (spec
section 4.4). -/
def G : ℝ := 6.674e-8

/-- One row of a planet-population table (spec section 3).  Numeric columns
that the embedded operations read are exact rationals; `planetType` and
`period` are derived columns that may be absent (`none`), matching a missing
or NaN entry in the DataFrame; `metallicity` is a derived real-valued column
whose value is only read after `convert_dgr2metallicity` overwrites it. -/
structure Row where
  status : Int
  m : ℚ
  e : ℚ
  a : ℚ
  dgr : ℚ
  isystem : Int
  metallicity : ℝ
  planetType : Option String
  period : Option ℝ

/-- Modelled from the spec: `config.massLimits()` from the configuration
module, which is absent from the repository source.  Spec sections 3 and 4.4:
a mapping from category name to a half-open mass interval
`(lowerExclusive, upperInclusive]` in Earth masses, with at least Earth-like,
intermediate and giant-class categories; `none` as upper bound models an
unbounded interval (numpy infinity). -/
def massLimits : List (String × ℚ × Option ℚ) :=
  [("Earth", mkRat 1 2, some 2), ("Neptune", 2, some 30), ("Giant", 30, none)]

/-- Membership of a mass in a category interval, mirroring
`(population['m'] > lim[pType][0]) & (population['m'] <= lim[pType][1])`
in `stats.categorizePlanets`. -/
def inMassInterval (m lo : ℚ) (hi : Option ℚ) : Bool :=
  decide (lo < m) && (match hi with | some h => decide (m ≤ h) | none => true)

/-- The base mass-category label a mass would receive from the category loop
of `stats.categorizePlanets`: the last category of `massLimits` whose
interval contains the mass, if any. -/
def massCategory (m : ℚ) : Option String :=
  massLimits.foldl (fun acc c => if inMassInterval m c.2.1 c.2.2 then some c.1 else acc) none

/-- Row-level effect of `stats.categorizePlanets` (stats.py lines 66-78).
The source iterates over the categories, assigning the category name to the
`planetType` column of every row with `status` 0 or 2 whose mass lies in the
category interval (later categories overwrite earlier ones), then appends
`"_ejected"` to `planetType` for every row with `status == 2` (a missing /
NaN `planetType` stays missing under the pandas string addition). -/
def categorizeRow (r : Row) : Option String :=
  let base :=
    if r.status = 0 ∨ r.status = 2 then
      massLimits.foldl (fun acc c => if inMassInterval r.m c.2.1 c.2.2 then some c.1 else acc)
        r.planetType
    else r.planetType
  if r.status = 2 then base.map (fun s => s ++ "_ejected") else base

/-- Embedding of `stats.categorizePlanets` (stats.py lines 48-80).  All the
source's column operations are row-local, so the function is the row map of
`categorizeRow`; the returned table is the mutated input table. -/
def categorizePlanets (population : List Row) : List Row :=
  population.map fun r => { r with planetType := categorizeRow r }

/-- The part of the `stats.filterPlanets` warning message that follows the
interpolated unknown type name: the rest of the format string with the
Python-printed list of the recognized keys interpolated. -/
def unknownTypeWarningSuffix : String :=
  "\x27 is not known. Please choose one of the following types or specify a new one in \x27config.py\x27: " ++
    ("[" ++ String.intercalate ", " (massLimits.map (fun c => "\x27" ++ c.1 ++ "\x27")) ++ "]")

/-- The warning message built by `stats.filterPlanets` (stats.py lines
105-107) for an unrecognized planet type: the Python format string with the
unknown type and the Python-printed list of recognized keys interpolated. -/
def unknownTypeWarning (pType : String) : String :=
  "the given planet type \x27" ++ pType ++ unknownTypeWarningSuffix

/-- Embedding of `stats.filterPlanets` (stats.py lines 83-112).  The first
component is the warning emitted (if any), the second the returned table:
for an unrecognized type the unmodified input population, otherwise the
categorized population restricted to rows whose `planetType` equals the
requested type. -/
def filterPlanets (population : List Row) (pType : String) : Option String × List Row :=
  if ¬ (pType ∈ massLimits.map (fun c => c.1)) then
    (some (unknownTypeWarning pType), population)
  else
    let population := categorizePlanets population
    (none, population.filter (fun r => r.planetType == some pType))

/-- Embedding of pandas `Series.nunique` on an integer column: the number of
distinct values. -/
def nunique (l : List Int) : Nat := l.dedup.length

/-- Embedding of pandas `Series.mean`: `none` (NaN) on an empty column. -/
noncomputable def listMean (l : List ℝ) : Option ℝ :=
  if l.length = 0 then none else some (l.sum / l.length)

/-- Embedding of pandas `Series.std` (sample standard deviation, ddof = 1):
`none` (NaN) on a column with fewer than two entries. -/
noncomputable def listStd (l : List ℝ) : Option ℝ :=
  if l.length ≤ 1 then none
  else some (Real.sqrt ((l.map (fun x => (x - l.sum / l.length) ^ 2)).sum / ((l.length : ℝ) - 1)))

/-- Modelled from the spec: `utils.convert_dgr2metallicity`, which is called
by `stats.get_typeStats` but absent from the repository's `utils.py`.  Spec
sections 4.4 and 6 say only that it converts a per-row disk-to-gas-ratio
quantity into a metallicity value; the logarithmic form relative to a solar
reference ratio is one faithful instance, and no claim depends on the
formula. -/
noncomputable def metallicityOfDgr (dgr : ℚ) : ℝ := Real.logb 10 ((dgr : ℝ) / 0.0149)

/-- Modelled from the spec: the table-level metallicity conversion, writing
the converted value of each row's disk-to-gas ratio into the `metallicity`
column. -/
noncomputable def convert_dgr2metallicity (population : List Row) : List Row :=
  population.map fun r => { r with metallicity := metallicityOfDgr r.dgr }

/-- The statistics dictionary returned by `stats.get_typeStats`. -/
structure TypeStats where
  Nplanets : Nat
  Nsystems : Nat
  fractionSystems : ℝ
  occurrence : ℝ
  multiplicity : ℝ
  meanMetallicity : Option ℝ
  stdMetallicity : Option ℝ
  meanEccentricity : Option ℝ
  stdEccentricity : Option ℝ

/-- Embedding of `stats.get_typeStats` (stats.py lines 115-162), with the
source's two true divisions over integer counts guarded: Python raises
`ZeroDivisionError` when the denominator is zero, first at
`stats['fractionSystems']` (line 140), then at `stats['occurrence']`
(line 143).  The `multiplicity` division is guarded in the source itself. -/
noncomputable def get_typeStats (population population_filtered : List Row) : Except String TypeStats :=
  let nplanets := population_filtered.length
  let nsystems := nunique (population_filtered.map (fun r => r.isystem))
  let totalSystems := nunique (population.map (fun r => r.isystem))
  if totalSystems = 0 then Except.error "ZeroDivisionError: division by zero"
  else
    let fractionSystems : ℝ := (nsystems : ℝ) / (totalSystems : ℝ)
    if population.length = 0 then Except.error "ZeroDivisionError: division by zero"
    else
      let occurrence : ℝ := (nplanets : ℝ) / (population.length : ℝ)
      let nfiltered := population_filtered.length
      let multiplicity : ℝ := if 0 < nfiltered then (nplanets : ℝ) / (nfiltered : ℝ) else 0
      let popfMet := convert_dgr2metallicity population_filtered
      Except.ok
        { Nplanets := nplanets
          Nsystems := nsystems
          fractionSystems := fractionSystems
          occurrence := occurrence
          multiplicity := multiplicity
          meanMetallicity := listMean (popfMet.map (fun r => r.metallicity))
          stdMetallicity := listStd (popfMet.map (fun r => r.metallicity))
          meanEccentricity := listMean (population_filtered.map (fun r => (r.e : ℝ)))
          stdEccentricity := listStd (population_filtered.map (fun r => (r.e : ℝ))) }

/-- Embedding of `utils.get_M0` (utils.py lines 8-28): total disk mass in
solar masses from the characteristic radius, the surface density at the
reference radius and the power-law slope.  Python's float power on positive
bases is the real power `Real.rpow`.  The source has a default `r0=5.2`;
here `r0` is an ordinary argument. -/
noncomputable def get_M0 (rc Sigma0 expo r0 : ℝ) : ℝ :=
  (2 * Real.pi) / (2 - expo) * Sigma0 * (r0 * au) ^ expo * (rc * au) ^ (2 - expo) / Msol

/-- Embedding of `utils.get_Sigma0` (utils.py lines 31-51): surface density
at the reference radius needed for a given total disk mass. -/
noncomputable def get_Sigma0 (rc M0 expo r0 : ℝ) : ℝ :=
  (r0 * au) ^ (-expo) * (rc * au) ^ (-2 + expo) * (2 - expo) * M0 * Msol / (2 * Real.pi)

/-! A minimal store of DataFrame objects, to make aliasing and in-place
column mutation observable: a store is a list of tables, a DataFrame value
held by the caller is an index into the store.  pandas boolean indexing and
`.copy()` allocate new objects (fresh indices); in-place column assignment
writes through an index. -/

/-- Read the table an index refers to (missing index reads as empty). -/
def readT (σ : List (List Row)) (i : Nat) : List Row := σ.getD i []

/-- Overwrite the table at an index (in-place column assignment). -/
def writeT (σ : List (List Row)) (i : Nat) (t : List Row) : List (List Row) := σ.set i t

/-- Embedding of `utils.get_orbitalPeriod` (utils.py lines 54-101) over the
DataFrame store.  Mirrors the source line by line: boolean indexing
`population[population['a'] > 0.]` yields a new object, `.copy()` allocates
another, the two `pop_posSma['period'] = ...` assignments write in place
through the copy's index.  Returns the final store and the index of the
returned table. -/
noncomputable def get_orbitalPeriod (σ : List (List Row)) (population : Nat) (MstarRel : ℝ) :
    List (List Row) × Nat :=
  let posRows := (readT σ population).filter (fun row => decide ((0 : ℚ) < row.a))
  let σ1 := σ ++ [posRows]
  let r1 := σ.length
  let σ2 := σ1 ++ [readT σ1 r1]
  let pop_posSma := σ1.length
  let Mstar := MstarRel * Msol
  let keplerConst := 4 * Real.pi ^ 2 / (G * Mstar)
  let σ3 := writeT σ2 pop_posSma ((readT σ2 pop_posSma).map (fun row =>
      { row with period := some (Real.sqrt (keplerConst * ((row.a : ℝ) * au) ^ (3 : ℕ))) }))
  let σ4 := writeT σ3 pop_posSma ((readT σ3 pop_posSma).map (fun row =>
      { row with period := row.period.map (fun p => p / 86400) }))
  (σ4, pop_posSma)

/-- The period value `get_orbitalPeriod` stores for a row with semi-major
axis `a`, after the seconds-to-days conversion. -/
noncomputable def periodOf (MstarRel : ℝ) (a : ℚ) : ℝ :=
  Real.sqrt (4 * Real.pi ^ 2 / (G * (MstarRel * Msol)) * ((a : ℝ) * au) ^ (3 : ℕ)) / 86400

/-! Embedding of `planetePlots.py`. -/

/-- Embedding of `numpy.arange(start, stop, step)` for a positive step over
the reals: the values `start + i * step` for `i` below
`max 0 ⌈(stop - start) / step⌉`. -/
noncomputable def arange (start stop step : ℝ) : List ℝ :=
  (List.range (⌈(stop - start) / step⌉.toNat)).map (fun i : ℕ => start + (i : ℝ) * step)

/-- Embedding of `planetePlots.compute_logbins` (planetePlots.py lines
59-83): bin edges `10 ** arange(log10 low, log10 high + binWidth_dex,
binWidth_dex)`, the log-range upper bound extended by one bin width so the
last edge reaches the upper range limit. -/
noncomputable def compute_logbins (binWidth_dex : ℝ) (range2 : ℝ × ℝ) : List ℝ :=
  (arange (Real.logb 10 range2.1) (Real.logb 10 range2.2 + binWidth_dex) binWidth_dex).map
    (fun e => (10 : ℝ) ^ e)

/-- A DataFrame as the plotting module sees it: a set of column names and
rows that assign an (exact rational) value to each column name. -/
structure PlotFrame where
  cols : List String
  rows : List (String → ℚ)

/-- A matplotlib axis, reduced to the state `plot_occurrence` touches: how
many mesh plots were drawn on it, its axis scales and its axis labels. -/
structure Axis where
  meshes : Nat
  xscale : String
  yscale : String
  xlabel : String
  ylabel : String

/-- A matplotlib figure, reduced to the labels of the colorbars attached to
it. -/
structure Fig where
  colorbars : List String

/-- The axis produced by `plt.subplots()` when `plot_occurrence` is called
without an axis. -/
def defaultAxis : Axis := { meshes := 0, xscale := "linear", yscale := "linear", xlabel := "", ylabel := "" }

/-- The error message of the `KeyError` raised by `plot_occurrence`
(planetePlots.py line 136) when an axis column is missing. -/
def keyErrorMsg : String := "KeyError: population does not contain both columns for the histogram"

/-- The error message of the `NameError` raised at `fig.colorbar(im)`
(planetePlots.py line 209) when the local name `fig` was never assigned. -/
def nameErrorMsg : String := "NameError: name \x27fig\x27 is not defined"

/-- The column values of a plotting DataFrame. -/
def colVals (df : PlotFrame) (c : String) : List ℚ := df.rows.map (fun r => r c)

/-- Minimum of a column as pandas computes it on the non-empty case; the
NaN that pandas returns for an empty column is not modelled (no claim
depends on empty-column ranges). -/
def colMin (df : PlotFrame) (c : String) : ℚ :=
  match colVals df c with
  | [] => 0
  | x :: xs => xs.foldl min x

/-- Maximum of a column, as `colMin`. -/
def colMax (df : PlotFrame) (c : String) : ℚ :=
  match colVals df c with
  | [] => 0
  | x :: xs => xs.foldl max x

/-- Embedding of `numpy.histogram2d(xs, ys, bins=(xedges, yedges))`: the
count matrix indexed by x-bin then y-bin, each bin half-open on the right
except the last, which also includes its right edge. -/
noncomputable def histogram2d (xs ys : List ℚ) (xedges yedges : List ℝ) : List (List Nat) :=
  let inBin : List ℝ → Nat → ℚ → Prop := fun edges i v =>
    edges.getD i 0 ≤ (v : ℝ) ∧
      ((v : ℝ) < edges.getD (i + 1) 0 ∨ (i + 2 = edges.length ∧ (v : ℝ) ≤ edges.getD (i + 1) 0))
  (List.range (xedges.length - 1)).map (fun i =>
    (List.range (yedges.length - 1)).map (fun j =>
      ((xs.zip ys).filter (fun p =>
        Classical.propDecidable (inBin xedges i p.1 ∧ inBin yedges j p.2) |>.decide)).length))

/-- Transpose of a count matrix (`h = h.T` in the source), with the result
cast to real entries as the subsequent normalization produces floats. -/
def transposeCounts (h : List (List Nat)) : List (List ℝ) :=
  h.transpose.map (fun row => row.map (fun n => (n : ℝ)))

/-- Embedding of `planetePlots.plot_occurrence` (planetePlots.py lines
86-213) at the source's default values of the remaining parameters
(`nBins=0`, `binWidth_dex=(0.25, 0.1)`, `smooth=False`, `normalize=True`,
`discreteColors=False`, `xRange=None`, `yRange=None`, no extra keyword
arguments), which fixes the corresponding branches exactly as the source
takes them.  The embedding mirrors the source's control flow: the column
check that raises `KeyError`; the `status == 0` restriction when a `status`
column exists; `fig, ax = plt.subplots()` only when no axis was supplied, so
that the local name `fig` is otherwise unassigned and `fig.colorbar(im)`
raises `NameError`; ranges, log bins, the 2D histogram, its transposition
and normalization to planets per 100 stars; the mesh plot and scale, label
and colorbar mutations. -/
noncomputable def plot_occurrence (population : PlotFrame) (ax : Option Axis)
    (xAxis yAxis : String) :
    Except String (List (List ℝ) × List ℝ × List ℝ × Axis) :=
  if ¬ (xAxis ∈ population.cols ∧ yAxis ∈ population.cols) then
    Except.error keyErrorMsg
  else
    let survivedPlanets :=
      if "status" ∈ population.cols then
        { cols := population.cols, rows := population.rows.filter (fun r => r "status" == 0) }
      else population
    let fig : Option Fig := match ax with | none => some { colorbars := [] } | some _ => none
    let ax : Axis := match ax with | none => defaultAxis | some a => a
    let xRange := (colMin survivedPlanets xAxis, colMax survivedPlanets xAxis)
    let yRange := (colMin survivedPlanets yAxis, colMax survivedPlanets yAxis)
    let xBins := compute_logbins 0.25 ((xRange.1 : ℝ), (xRange.2 : ℝ))
    let yBins := compute_logbins 0.1 ((yRange.1 : ℝ), (yRange.2 : ℝ))
    let h := transposeCounts (histogram2d (colVals survivedPlanets xAxis)
      (colVals survivedPlanets yAxis) xBins yBins)
    let nsystems := survivedPlanets.rows.length
    let h := h.map (fun row => row.map (fun c => c * 100 / (nsystems : ℝ)))
    let cbarlabel := "Planets per 100 Stars per $P-R_P$ interval"
    let ax := { ax with meshes := ax.meshes + 1 }
    let ax := { ax with xscale := "log", yscale := "log" }
    match fig with
    | none => Except.error nameErrorMsg
    | some f =>
      let _cbar := { f with colorbars := f.colorbars ++ [cbarlabel] }
      let ax := { ax with xlabel := xAxis, ylabel := yAxis }
      Except.ok (h, xBins, yBins, ax)

/-! Helper lemmas about the category-assignment fold of `categorizePlanets`. -/

/-- Projection of a `planetType` record update. -/
theorem status_update (r : Row) (x : Option String) :
    ({ r with planetType := x } : Row).status = r.status := rfl

/-- Projection of a `planetType` record update. -/
theorem m_update (r : Row) (x : Option String) :
    ({ r with planetType := x } : Row).m = r.m := rfl

/-- Projection of a `planetType` record update. -/
theorem planetType_update (r : Row) (x : Option String) :
    ({ r with planetType := x } : Row).planetType = x := rfl

/-- The category-assignment fold started from a present value yields the last
matching category if one exists and the start value otherwise. -/
theorem foldl_assign_some (m : ℚ) (l : List (String × ℚ × Option ℚ)) :
    ∀ x : String,
      l.foldl (fun acc c => if inMassInterval m c.2.1 c.2.2 then some c.1 else acc) (some x) =
        some ((l.foldl (fun acc c => if inMassInterval m c.2.1 c.2.2 then some c.1 else acc)
          none).getD x) := by
  induction l with
  | nil => intro x; rfl
  | cons c t ih =>
    intro x
    by_cases h : inMassInterval m c.2.1 c.2.2 = true
    · rw [List.foldl_cons, List.foldl_cons, if_pos h, if_pos h, ih c.1]
      simp
    · rw [List.foldl_cons, List.foldl_cons, if_neg h, if_neg h, ih x]

/-- If some category interval contains the mass, the category-assignment fold
returns the last such category regardless of its start value. -/
theorem assignFold_of_massCategory_some {m : ℚ} {b : String}
    (h : massCategory m = some b) (init : Option String) :
    massLimits.foldl (fun acc c => if inMassInterval m c.2.1 c.2.2 then some c.1 else acc) init =
      some b := by
  have h' : massLimits.foldl
      (fun acc c => if inMassInterval m c.2.1 c.2.2 then some c.1 else acc) none = some b := h
  cases init with
  | none => exact h'
  | some x => rw [foldl_assign_some, h']; rfl

/-- If no category interval contains the mass, the category-assignment fold
returns its start value. -/
theorem assignFold_of_massCategory_none {m : ℚ}
    (h : massCategory m = none) (init : Option String) :
    massLimits.foldl (fun acc c => if inMassInterval m c.2.1 c.2.2 then some c.1 else acc) init =
      init := by
  have h' : massLimits.foldl
      (fun acc c => if inMassInterval m c.2.1 c.2.2 then some c.1 else acc) none = none := h
  cases init with
  | none => exact h'
  | some x => rw [foldl_assign_some, h']; rfl

/-- Normal form of `categorizeRow` by status code. -/
theorem categorizeRow_eq (r : Row) :
    categorizeRow r =
      if r.status = 2 then
        (massLimits.foldl (fun acc c => if inMassInterval r.m c.2.1 c.2.2 then some c.1 else acc)
          r.planetType).map (fun s => s ++ "_ejected")
      else if r.status = 0 then
        massLimits.foldl (fun acc c => if inMassInterval r.m c.2.1 c.2.2 then some c.1 else acc)
          r.planetType
      else r.planetType := by
  unfold categorizeRow
  by_cases h2 : r.status = 2
  · simp [h2]
  · by_cases h0 : r.status = 0 <;> simp [h0, h2]

/-- One categorization run on a row whose `planetType` starts unset is not
changed by a second run. -/
theorem categorizeRow_idem (r : Row) (h : r.planetType = none) :
    categorizeRow { r with planetType := categorizeRow r } = categorizeRow r := by
  by_cases h2 : r.status = 2
  · cases hmc : massCategory r.m with
    | some b =>
      have h1 : categorizeRow r = some (b ++ "_ejected") := by
        rw [categorizeRow_eq, if_pos h2, assignFold_of_massCategory_some hmc]
        rfl
      rw [h1, categorizeRow_eq]
      simp only [status_update, m_update, planetType_update]
      rw [if_pos h2, assignFold_of_massCategory_some hmc]
      rfl
    | none =>
      have h1 : categorizeRow r = none := by
        rw [categorizeRow_eq, if_pos h2, h, assignFold_of_massCategory_none hmc]
        rfl
      rw [h1, categorizeRow_eq]
      simp only [status_update, m_update, planetType_update]
      rw [if_pos h2, assignFold_of_massCategory_none hmc]
      rfl
  · by_cases h0 : r.status = 0
    · cases hmc : massCategory r.m with
      | some b =>
        have h1 : categorizeRow r = some b := by
          rw [categorizeRow_eq, if_neg h2, if_pos h0, assignFold_of_massCategory_some hmc]
        rw [h1, categorizeRow_eq]
        simp only [status_update, m_update, planetType_update]
        rw [if_neg h2, if_pos h0, assignFold_of_massCategory_some hmc]
      | none =>
        have h1 : categorizeRow r = none := by
          rw [categorizeRow_eq, if_neg h2, if_pos h0, h, assignFold_of_massCategory_none hmc]
        rw [h1, categorizeRow_eq]
        simp only [status_update, m_update, planetType_update]
        rw [if_neg h2, if_pos h0]
        exact assignFold_of_massCategory_none hmc none
    · have h1 : categorizeRow r = none := by
        rw [categorizeRow_eq, if_neg h2, if_neg h0, h]
      rw [h1, categorizeRow_eq]
      simp only [status_update, m_update, planetType_update]
      rw [if_neg h2, if_neg h0]

/-- Row used as a generic concrete table entry in witnesses. -/
def rowOther : Row :=
  { status := 5, m := 1, e := 0, a := 1, dgr := 1, isystem := 1, metallicity := 0,
    planetType := none, period := none }

/-- Row with a pre-set `planetType`, `status == 2` and a mass outside every
category interval. -/
def rowPreset : Row :=
  { status := 2, m := -1, e := 0, a := 1, dgr := 1, isystem := 1, metallicity := 0,
    planetType := some "Earth", period := none }

/-- C3 counterexample: on a population holding one row with `status == 2`,
mass outside every mass-category interval and a pre-existing `planetType`
label, a second run of `categorizePlanets` appends `"_ejected"` again, so the
`planetType` column after two runs differs from the column after one run. -/
theorem categorizePlanets_not_idempotent_on_preset_label :
    (categorizePlanets [rowPreset]).map (fun r => r.planetType) = [some "Earth_ejected"] ∧
    (categorizePlanets (categorizePlanets [rowPreset])).map (fun r => r.planetType) =
      [some "Earth_ejected_ejected"] ∧
    (categorizePlanets (categorizePlanets [rowPreset])).map (fun r => r.planetType) ≠
      (categorizePlanets [rowPreset]).map (fun r => r.planetType) := by
  refine ⟨rfl, rfl, by decide⟩

/-- C3 amended: on every population whose `planetType` column starts
absent/unset (the situation the claim describes, since `categorizePlanets`
itself creates the column), applying `categorizePlanets` twice leaves every
row equal to what a single application produces. -/
theorem categorizePlanets_idempotent_of_unset (pop : List Row)
    (h : ∀ r ∈ pop, r.planetType = none) :
    categorizePlanets (categorizePlanets pop) = categorizePlanets pop := by
  unfold categorizePlanets
  rw [List.map_map]
  apply List.map_congr_left
  intro r hr
  simp only [Function.comp]
  rw [categorizeRow_idem r (h r hr)]

/-- C3 amended witness at a concrete one-row population. -/
theorem categorizePlanets_idempotent_of_unset_witness :
    (∀ r ∈ ([rowOther] : List Row), r.planetType = none) ∧
    categorizePlanets (categorizePlanets [rowOther]) = categorizePlanets [rowOther] :=
  ⟨by intro r hr; simp at hr; subst hr; rfl,
   categorizePlanets_idempotent_of_unset [rowOther]
     (by intro r hr; simp at hr; subst hr; rfl)⟩

/-- C4: after `categorizePlanets`, a row whose status is neither 0 nor 2 has
no category label assigned (its `planetType` entry is exactly what it was
before, in particular it stays absent if it was absent), and a row with
`status == 2` that received a base mass-category label carries that label
with the suffix `"_ejected"` appended. -/
theorem categorizePlanets_status_gate_and_ejected_suffix (pop : List Row) (i : Nat) (r : Row)
    (h : pop[i]? = some r) :
    ((r.status ≠ 0 ∧ r.status ≠ 2) →
      ((categorizePlanets pop)[i]?).map (fun x => x.planetType) = some r.planetType) ∧
    (r.status = 2 → ∀ b, massCategory r.m = some b →
      ((categorizePlanets pop)[i]?).map (fun x => x.planetType) =
        some (some (b ++ "_ejected"))) := by
  have hg : (categorizePlanets pop)[i]? = some { r with planetType := categorizeRow r } := by
    unfold categorizePlanets
    rw [List.getElem?_map, h]
    rfl
  constructor
  · rintro ⟨h0, h2⟩
    rw [hg]
    simp only [Option.map_some', planetType_update]
    rw [categorizeRow_eq, if_neg h2, if_neg h0]
  · intro h2 b hb
    rw [hg]
    simp only [Option.map_some', planetType_update]
    rw [categorizeRow_eq, if_pos h2, assignFold_of_massCategory_some hb]
    rfl

/-- C4 witness: concrete evaluation on a one-row population with status 5. -/
theorem categorizePlanets_status_gate_and_ejected_suffix_witness :
    ([rowOther] : List Row)[0]? = some rowOther ∧
    ((categorizePlanets [rowOther])[0]?).map (fun x => x.planetType) =
      some rowOther.planetType :=
  ⟨rfl, (categorizePlanets_status_gate_and_ejected_suffix [rowOther] 0 rowOther rfl).1
    (by decide)⟩

set_option maxRecDepth 40000 in
/-- C5: `filterPlanets` on an unrecognized category name returns the warning
paired with the input population unchanged (no classification performed),
and the warning message names the unrecognized type and every recognized
type. -/
theorem filterPlanets_unknown_type (pop : List Row) (pType : String)
    (h : ¬ pType ∈ massLimits.map (fun c => c.1)) :
    filterPlanets pop pType = (some (unknownTypeWarning pType), pop) ∧
    pType.data <:+: (unknownTypeWarning pType).data ∧
    ∀ k ∈ massLimits.map (fun c => c.1), k.data <:+: (unknownTypeWarning pType).data := by
  refine ⟨by unfold filterPlanets; rw [if_pos h], ?_, ?_⟩
  · exact ⟨("the given planet type \x27" : String).data,
      (unknownTypeWarningSuffix).data,
      by simp [unknownTypeWarning, String.data_append, List.append_assoc]⟩
  · intro k hk
    have hsuf : (unknownTypeWarningSuffix).data <:+: (unknownTypeWarning pType).data :=
      ⟨("the given planet type \x27" : String).data ++ pType.data, [],
        by simp [unknownTypeWarning, String.data_append, List.append_assoc]⟩
    have hk2 : k.data <:+: (unknownTypeWarningSuffix).data := by
      simp only [massLimits, List.map_cons, List.map_nil, List.mem_cons,
        List.not_mem_nil, or_false] at hk
      rcases hk with h1 | h1 | h1 <;> subst h1 <;> decide
    exact hk2.trans hsuf

/-- C5 witness at a concrete population and the unknown type name Mars. -/
theorem filterPlanets_unknown_type_witness :
    (¬ "Mars" ∈ massLimits.map (fun c => c.1)) ∧
    filterPlanets [rowOther] "Mars" = (some (unknownTypeWarning "Mars"), [rowOther]) :=
  ⟨by decide, (filterPlanets_unknown_type [rowOther] "Mars" (by decide)).1⟩

/-- C2: whenever `get_typeStats` returns (its two integer divisions are
defined, which a non-empty full population guarantees) and the filtered
population is non-empty, the returned `multiplicity` equals exactly 1,
because its numerator and denominator are both the row count of the
filtered population. -/
theorem get_typeStats_multiplicity_one (pop filt : List Row)
    (hf : filt ≠ []) (hp : pop ≠ []) :
    ∃ s, get_typeStats pop filt = Except.ok s ∧ s.multiplicity = 1 := by
  have h1 : ¬ nunique (pop.map (fun r => r.isystem)) = 0 := by
    intro hz
    rw [nunique, List.length_eq_zero, List.dedup_eq_nil] at hz
    cases pop with
    | nil => exact hp rfl
    | cons a t => simp at hz
  have h2 : ¬ pop.length = 0 := by
    intro hz
    exact hp (List.length_eq_zero.mp hz)
  simp only [get_typeStats]
  rw [if_neg h1, if_neg h2]
  refine ⟨_, rfl, ?_⟩
  simp only []
  rw [if_pos (List.length_pos.mpr hf)]
  exact div_self (Nat.cast_ne_zero.mpr (fun hz => hf (List.length_eq_zero.mp hz)))

/-- C2 witness at a concrete one-row population and filtered population. -/
theorem get_typeStats_multiplicity_one_witness :
    ([rowOther] : List Row) ≠ [] ∧
    ∃ s, get_typeStats [rowOther] [rowOther] = Except.ok s ∧ s.multiplicity = 1 :=
  ⟨by simp, get_typeStats_multiplicity_one [rowOther] [rowOther] (by simp) (by simp)⟩

/-- C9 counterexample: with an empty full population (and empty filtered
population) `get_typeStats` fails with a division by zero at the
`fractionSystems` computation instead of returning `multiplicity == 0`. -/
theorem get_typeStats_empty_population_raises :
    get_typeStats ([] : List Row) ([] : List Row) =
      Except.error "ZeroDivisionError: division by zero" := rfl

/-- C9 amended: for every non-empty full population, `get_typeStats` with an
empty filtered population does not fail: it returns `multiplicity == 0`
(guarding the division by zero) and the mean/standard-deviation statistics
are the undefined-value sentinel. -/
theorem get_typeStats_empty_filtered_ok (pop : List Row) (hp : pop ≠ []) :
    ∃ s, get_typeStats pop [] = Except.ok s ∧ s.multiplicity = 0 ∧
      s.meanMetallicity = none ∧ s.stdMetallicity = none ∧
      s.meanEccentricity = none ∧ s.stdEccentricity = none := by
  have h1 : ¬ nunique (pop.map (fun r => r.isystem)) = 0 := by
    intro hz
    rw [nunique, List.length_eq_zero, List.dedup_eq_nil] at hz
    cases pop with
    | nil => exact hp rfl
    | cons a t => simp at hz
  have h2 : ¬ pop.length = 0 := by
    intro hz
    exact hp (List.length_eq_zero.mp hz)
  simp only [get_typeStats]
  rw [if_neg h1, if_neg h2]
  exact ⟨_, rfl, rfl, rfl, rfl, rfl, rfl⟩

/-- C9 amended witness at a concrete one-row population. -/
theorem get_typeStats_empty_filtered_ok_witness :
    ([rowOther] : List Row) ≠ [] ∧
    ∃ s, get_typeStats [rowOther] [] = Except.ok s ∧ s.multiplicity = 0 ∧
      s.meanMetallicity = none ∧ s.stdMetallicity = none ∧
      s.meanEccentricity = none ∧ s.stdEccentricity = none :=
  ⟨by simp, get_typeStats_empty_filtered_ok [rowOther] (by simp)⟩

/-- C7: `get_Sigma0` is the exact algebraic inverse of `get_M0`: for every
positive characteristic radius and every power-law slope other than 2 (at
the shared reference radius 5.2 au), converting a surface density to a total
disk mass and back returns the original surface density. -/
theorem get_Sigma0_inverse_get_M0 (rc Sigma0 expo : ℝ) (hrc : 0 < rc) (he : expo ≠ 2) :
    get_Sigma0 rc (get_M0 rc Sigma0 expo 5.2) expo 5.2 = Sigma0 := by
  have hau : (0 : ℝ) < au := by norm_num [au]
  have hr0 : (0 : ℝ) < 5.2 * au := by norm_num [au]
  have hrca : (0 : ℝ) < rc * au := mul_pos hrc hau
  have h2e : (2 : ℝ) - expo ≠ 0 := sub_ne_zero_of_ne (Ne.symm he)
  have hMsol : Msol ≠ 0 := by norm_num [Msol]
  have hpi : Real.pi ≠ 0 := Real.pi_ne_zero
  have hx : (5.2 * au : ℝ) ^ expo ≠ 0 := (Real.rpow_pos_of_pos hr0 _).ne'
  have hy : (rc * au : ℝ) ^ (2 - expo) ≠ 0 := (Real.rpow_pos_of_pos hrca _).ne'
  unfold get_Sigma0 get_M0
  rw [Real.rpow_neg hr0.le, show (-2 + expo : ℝ) = -(2 - expo) by ring,
    Real.rpow_neg hrca.le]
  field_simp
  ring

/-- C7 witness at a concrete positive radius and slope. -/
theorem get_Sigma0_inverse_get_M0_witness :
    (0 : ℝ) < 1 ∧ (1 : ℝ) ≠ 2 ∧ get_Sigma0 1 (get_M0 1 3 1 5.2) 1 5.2 = 3 :=
  ⟨one_pos, by norm_num, get_Sigma0_inverse_get_M0 1 3 1 one_pos (by norm_num)⟩

/-! Store lemmas for the DataFrame heap used by `get_orbitalPeriod`. -/

/-- Reading below the length of the left part of an appended store. -/
theorem readT_append_left (σ l2 : List (List Row)) (i : Nat) (h : i < σ.length) :
    readT (σ ++ l2) i = readT σ i := by
  unfold readT
  rw [List.getD_eq_getElem?_getD, List.getD_eq_getElem?_getD, List.getElem?_append, if_pos h]

/-- Reading the table just allocated at the end of the store. -/
theorem readT_concat_self (σ : List (List Row)) (t : List Row) :
    readT (σ ++ [t]) σ.length = t := by
  unfold readT
  rw [List.getD_eq_getElem?_getD, List.getElem?_concat_length]
  rfl

/-- A write at one index does not change a read at a different index. -/
theorem readT_writeT_ne (σ : List (List Row)) (i j : Nat) (t : List Row) (h : j ≠ i) :
    readT (writeT σ j t) i = readT σ i := by
  unfold readT writeT
  rw [List.getD_eq_getElem?_getD, List.getD_eq_getElem?_getD, List.getElem?_set_ne h]

/-- A write at an allocated index is read back. -/
theorem readT_writeT_self (σ : List (List Row)) (i : Nat) (t : List Row) (h : i < σ.length) :
    readT (writeT σ i t) i = t := by
  unfold readT writeT
  rw [List.getD_eq_getElem?_getD, List.getElem?_set_self h]
  rfl

/-- C10: `get_orbitalPeriod` never mutates its input: the caller's table is
unchanged in the store after the call (same rows, same columns, no `period`
entries added to it), and the returned table is the copy holding exactly the
rows with positive semi-major axis, each with the derived `period` column. -/
theorem get_orbitalPeriod_no_mutation (σ : List (List Row)) (r : Nat) (M : ℝ)
    (hr : r < σ.length) :
    readT (get_orbitalPeriod σ r M).1 r = readT σ r ∧
    readT (get_orbitalPeriod σ r M).1 (get_orbitalPeriod σ r M).2 =
      ((readT σ r).filter (fun row => decide ((0 : ℚ) < row.a))).map
        (fun row => { row with period := some (periodOf M row.a) }) := by
  simp only [get_orbitalPeriod]
  rw [readT_concat_self σ ((readT σ r).filter (fun row => decide ((0 : ℚ) < row.a)))]
  constructor
  · rw [readT_writeT_ne _ _ _ _ (by simp; omega), readT_writeT_ne _ _ _ _ (by simp; omega),
      readT_append_left _ _ _ (by simp; omega), readT_append_left _ _ _ hr]
  · rw [readT_writeT_self _ _ _ (by simp [writeT]),
      readT_writeT_self _ _ _ (by simp),
      readT_concat_self]
    rw [List.map_map]
    apply List.map_congr_left
    intro row _
    simp [periodOf, Function.comp]

/-- C10 witness at a concrete one-table store. -/
theorem get_orbitalPeriod_no_mutation_witness :
    (0 : Nat) < ([[rowOther]] : List (List Row)).length ∧
    readT (get_orbitalPeriod [[rowOther]] 0 1).1 0 = readT [[rowOther]] 0 :=
  ⟨by simp, (get_orbitalPeriod_no_mutation [[rowOther]] 0 1 (by simp)).1⟩

/-- C6: for every positive bin width and range bounds `0 < low < high`, the
edges returned by `compute_logbins` start at `low`, are evenly spaced in
log10 by the bin width (edge `i` is `10 ^ (log10 low + i * width)`), and the
last edge is at least `high`. -/
theorem compute_logbins_spec (w lo hi : ℝ) (hw : 0 < w) (hlo : 0 < lo) (hlh : lo < hi) :
    (compute_logbins w (lo, hi)).head? = some lo ∧
    (∀ i, ∀ h : i < (compute_logbins w (lo, hi)).length,
      (compute_logbins w (lo, hi))[i] = (10 : ℝ) ^ (Real.logb 10 lo + i * w)) ∧
    ∃ last, (compute_logbins w (lo, hi)).getLast? = some last ∧ hi ≤ last := by
  have h10 : (1 : ℝ) < 10 := by norm_num
  have hb0 : (0 : ℝ) < 10 := by norm_num
  have hb1 : (10 : ℝ) ≠ 1 := by norm_num
  have hd : 0 < Real.logb 10 hi - Real.logb 10 lo :=
    sub_pos.mpr (Real.logb_lt_logb h10 hlo hlh)
  have hcpos : (1 : ℤ) < ⌈(Real.logb 10 hi + w - Real.logb 10 lo) / w⌉ := by
    rw [Int.lt_ceil]
    rw [show ((1 : ℤ) : ℝ) = 1 by norm_num, lt_div_iff hw]
    linarith
  have hlen : (compute_logbins w (lo, hi)).length =
      (⌈(Real.logb 10 hi + w - Real.logb 10 lo) / w⌉).toNat := by
    simp [compute_logbins, arange]
  have hget : ∀ i, i < (⌈(Real.logb 10 hi + w - Real.logb 10 lo) / w⌉).toNat →
      (compute_logbins w (lo, hi))[i]? =
        some ((10 : ℝ) ^ (Real.logb 10 lo + i * w)) := by
    intro i hi2
    simp only [compute_logbins, arange]
    rw [List.getElem?_map, List.getElem?_map, List.getElem?_range hi2]
    rfl
  refine ⟨?_, ?_, ?_⟩
  · rw [List.head?_eq_getElem?, hget 0 (by omega)]
    norm_num [Real.rpow_logb hb0 hb1 hlo]
  · intro i h
    have h2 : (compute_logbins w (lo, hi))[i]? = some ((compute_logbins w (lo, hi))[i]) :=
      List.getElem?_eq_getElem h
    have h3 := hget i (by rw [hlen] at h; exact h)
    exact Option.some.inj (h2.symm.trans h3)
  · have h1n : 1 ≤ (⌈(Real.logb 10 hi + w - Real.logb 10 lo) / w⌉).toNat := by omega
    have hlast : (compute_logbins w (lo, hi)).getLast? =
        some ((10 : ℝ) ^ (Real.logb 10 lo +
          ((⌈(Real.logb 10 hi + w - Real.logb 10 lo) / w⌉).toNat - 1 : ℕ) * w)) := by
      rw [List.getLast?_eq_getElem?, hlen, hget _ (by omega)]
    refine ⟨_, hlast, ?_⟩
    have hc := Int.le_ceil ((Real.logb 10 hi + w - Real.logb 10 lo) / w)
    have hC0 : (0 : ℤ) ≤ ⌈(Real.logb 10 hi + w - Real.logb 10 lo) / w⌉ := by omega
    have hcastn : (((⌈(Real.logb 10 hi + w - Real.logb 10 lo) / w⌉).toNat : ℕ) : ℝ) =
        ((⌈(Real.logb 10 hi + w - Real.logb 10 lo) / w⌉ : ℤ) : ℝ) := by
      exact_mod_cast congrArg (fun z : ℤ => (z : ℝ)) (Int.toNat_of_nonneg hC0)
    have hcast : (((⌈(Real.logb 10 hi + w - Real.logb 10 lo) / w⌉).toNat - 1 : ℕ) : ℝ) =
        ((⌈(Real.logb 10 hi + w - Real.logb 10 lo) / w⌉ : ℤ) : ℝ) - 1 := by
      rw [Nat.cast_sub h1n, hcastn]
      norm_num
    have hdivle : (Real.logb 10 hi + w - Real.logb 10 lo) ≤
        ((⌈(Real.logb 10 hi + w - Real.logb 10 lo) / w⌉ : ℤ) : ℝ) * w := by
      rw [← div_le_iff hw] at *
      exact hc
    calc hi = (10 : ℝ) ^ Real.logb 10 hi :=
          (Real.rpow_logb hb0 hb1 (lt_trans hlo hlh)).symm
      _ ≤ (10 : ℝ) ^ (Real.logb 10 lo +
          ((⌈(Real.logb 10 hi + w - Real.logb 10 lo) / w⌉).toNat - 1 : ℕ) * w) := by
          apply (Real.rpow_le_rpow_left_iff h10).mpr
          rw [hcast]
          have hexp : (((⌈(Real.logb 10 hi + w - Real.logb 10 lo) / w⌉ : ℤ) : ℝ) - 1) * w =
              ((⌈(Real.logb 10 hi + w - Real.logb 10 lo) / w⌉ : ℤ) : ℝ) * w - w := by ring
          rw [hexp]
          linarith

/-- C6 witness at width 1 dex over the range (10, 1000). -/
theorem compute_logbins_spec_witness :
    (0 : ℝ) < 1 ∧ (0 : ℝ) < 10 ∧ (10 : ℝ) < 1000 ∧
    (compute_logbins 1 (10, 1000)).head? = some 10 :=
  ⟨one_pos, by norm_num, by norm_num,
    (compute_logbins_spec 1 10 1000 one_pos (by norm_num) (by norm_num)).1⟩

/-- The two terminal behaviours of `plot_occurrence` once both axis columns
exist: with a supplied axis the local name `fig` is unassigned and the call
ends in the `NameError` at `fig.colorbar(im)`; with no axis supplied the
call returns normally. -/
theorem plot_occurrence_branches (pop : PlotFrame) (x y : String)
    (h : x ∈ pop.cols ∧ y ∈ pop.cols) :
    (∀ a : Axis, plot_occurrence pop (some a) x y = Except.error nameErrorMsg) ∧
    ∃ t, plot_occurrence pop none x y = Except.ok t := by
  constructor
  · intro a
    unfold plot_occurrence
    rw [if_neg (not_not_intro h)]
  · unfold plot_occurrence
    rw [if_neg (not_not_intro h)]
    exact ⟨_, rfl⟩

/-- C1: every call of `plot_occurrence` that supplies a pre-existing axis
and a population containing both requested columns does not complete: it
raises `NameError` at `fig.colorbar(im)` because the local name `fig` is
assigned only in the branch that creates a new figure, so the supplied axis
is never returned. -/
theorem plot_occurrence_ax_supplied_nameError (pop : PlotFrame) (a : Axis) (x y : String)
    (hx : x ∈ pop.cols) (hy : y ∈ pop.cols) :
    plot_occurrence pop (some a) x y = Except.error nameErrorMsg :=
  (plot_occurrence_branches pop x y ⟨hx, hy⟩).1 a

/-- Concrete population with both default axis columns and a status column. -/
def popBoth : PlotFrame :=
  { cols := ["period", "r", "status"],
    rows := [fun c => if c == "period" then 2 else if c == "r" then 1 else 0] }

/-- C1 witness: the concrete failing call with a supplied axis. -/
theorem plot_occurrence_ax_supplied_nameError_witness :
    "period" ∈ popBoth.cols ∧ "r" ∈ popBoth.cols ∧
    plot_occurrence popBoth (some defaultAxis) "period" "r" = Except.error nameErrorMsg :=
  ⟨by simp [popBoth], by simp [popBoth],
    plot_occurrence_ax_supplied_nameError popBoth defaultAxis "period" "r"
      (by simp [popBoth]) (by simp [popBoth])⟩

/-- Concrete population lacking the column named foo. -/
def popMissing : PlotFrame := { cols := ["period"], rows := [fun _ => 1] }

set_option maxRecDepth 40000 in
/-- C8 counterexample: requesting the absent column named foo makes
`plot_occurrence` fail, but the error message is the fixed string of the
source's `KeyError`, which does not name the missing column. -/
theorem plot_occurrence_keyError_not_naming :
    plot_occurrence popMissing none "period" "foo" = Except.error keyErrorMsg ∧
    ¬ ("foo".data <:+: keyErrorMsg.data) := by
  constructor
  · rfl
  · decide

/-- C8 amended: `plot_occurrence` fails with the `KeyError` carrying the
fixed message (not naming the missing columns) exactly when at least one of
the two requested axis columns is absent from the population; when both are
present this error is not raised. -/
theorem plot_occurrence_keyError_iff (pop : PlotFrame) (ax : Option Axis) (x y : String) :
    plot_occurrence pop ax x y = Except.error keyErrorMsg ↔
      ¬ (x ∈ pop.cols ∧ y ∈ pop.cols) := by
  by_cases h : x ∈ pop.cols ∧ y ∈ pop.cols
  · have hb := plot_occurrence_branches pop x y h
    cases ax with
    | some a => simp +decide [hb.1 a, h, nameErrorMsg, keyErrorMsg]
    | none =>
      obtain ⟨t, ht⟩ := hb.2
      simp [ht, h]
  · unfold plot_occurrence
    rw [if_pos h]
    simp [h]

end PopSyn
